import Mathlib

/-!
Shallow embedding of `src/lib/resolvers.js` of TramboCloud/aws-app-sync:
the resolver synchronizer (`createOrUpdateResolvers`) and the obsolete
resolver remover (`removeObsoleteResolvers`).

JavaScript objects are modelled as a fixed-field record `Resolver` in which
`none` stands for an absent (or `undefined`-valued) key — the comparisons the
code performs (key-wise lookups and whole-record structural equality between
records built from the same key universe) do not distinguish the two.
The asynchronous API client is modelled by an `Env` of pure functions plus an
explicit trace of the remote calls issued (`ApiCall`); `Promise.all` batches
are modelled by issuing every branch's calls and propagating the first error
in list order (JS issues the branches concurrently; the claims under study
are insensitive to inter-branch ordering).

The helpers `checkForDuplicates`, `defaultToAnArray`, `equalsByKeys`,
`listAll` and `readIfFile` come from `src/lib/index.js`, which is not part of
the provided sources; they are modelled from the spec where noted.
`defaultToAnArray` (nil-to-empty-list coercion) is made implicit by taking
lists directly. Ramda functions (`merge`, `pick`, `difference`, `find`,
`equals`, `isNil`, `flatten`, `map`) are embedded with their documented
semantics.
-/

namespace AppSync

/-- A JS resolver/mapping-template object. `none` models an absent key.
`pipelineConfig`: `none` = key absent, `some none` = object without a
`functions` key, `some (some l)` = `\x7b functions: l \x7d`. -/
structure Resolver where
  typeName : Option String := none
  fieldName : Option String := none
  dataSourceName : Option String := none
  type : Option String := none
  field : Option String := none
  dataSource : Option String := none
  request : Option String := none
  response : Option String := none
  requestMappingTemplate : Option String := none
  responseMappingTemplate : Option String := none
  kind : Option String := none
  pipelineConfig : Option (Option (List String)) := none
  mode : Option String := none
deriving DecidableEq, Repr

/-- An entry of `config.functions`: `\x7b name, functionId \x7d`. -/
structure FuncEntry where
  name : Option String := none
  functionId : Option String := none
deriving DecidableEq, Repr

/-- The declared `config` object (shape per §6 of the spec). -/
structure Config where
  apiId : Option String := none
  mappingTemplates : List Resolver := []
  functions : List FuncEntry := []
deriving DecidableEq, Repr

/-- The `params` object sent to `createResolver` / `updateResolver`
(lines 89-112 of `src/lib/resolvers.js`). `pipelineConfig` as in
`Resolver`; `dataSourceName` is set only on the unit-resolver branch. -/
structure Params where
  apiId : Option String := none
  fieldName : Option String := none
  requestMappingTemplate : Option String := none
  responseMappingTemplate : Option String := none
  typeName : Option String := none
  kind : Option String := none
  pipelineConfig : Option (Option (List String)) := none
  dataSourceName : Option String := none
deriving DecidableEq, Repr

/-- A remote API call issued through the injected AppSync client. -/
inductive ApiCall where
  | listResolvers (apiId typeName : Option String)
  | getDataSource (apiId name : Option String)
  | createResolver (p : Params)
  | updateResolver (p : Params)
  | deleteResolver (apiId typeName fieldName : Option String)
deriving DecidableEq, Repr

/-- The fatal configuration errors `createOrUpdateResolvers` can throw.
`functionFindFailed` models the TypeError raised by destructuring the
result of a failed `find` (line 81); `functionIdMissing` the explicit
`throw` at line 85; `pipelineWithDataSource` line 105; `missingDataSource`
line 109; `duplicateKey` the `checkForDuplicates` failure at line 12. -/
inductive SyncError where
  | duplicateKey
  | functionFindFailed (name : String)
  | functionIdMissing (name : String)
  | pipelineWithDataSource (field : Option String)
  | missingDataSource (field : Option String)
deriving DecidableEq, Repr

/-- The external world: the file system seen by `readIfFile`, the data-source
type returned by `appSync.getDataSource` (assumed to answer every name the
run asks about), and the fully drained `listResolvers` pages per type name. -/
structure Env where
  fs : String → Option String
  dsType : Option String → String
  deployed : Option String → List Resolver

/-- Modelled from the spec: `readIfFile` from `src/lib/index.js` (not under
`src/`). §6: given a string, if it names an existing file return its text
content, else return the string as literal content, or nil if absent. -/
def readIfFile (fs : String → Option String) : Option String → Option String
  | none => none
  | some s => some ((fs s).getD s)

/-- Modelled from the spec: `equalsByKeys` from `src/lib/index.js` (not under
`src/`). §9: a field-by-field comparator over a fixed key list, true iff all
named fields are equal by value; specialized here to the five keys of the
call site at line 66 of `src/lib/resolvers.js`. -/
def equalsByKeys5 (a b : Resolver) : Bool :=
  a.dataSource == b.dataSource && a.type == b.type && a.field == b.field &&
    a.responseMappingTemplate == b.responseMappingTemplate &&
    a.requestMappingTemplate == b.requestMappingTemplate

/-- The (dataSource, type, field) key triple used by the duplicate check. -/
def dupKey (r : Resolver) : Option String × Option String × Option String :=
  (r.dataSource, r.type, r.field)

/-- Modelled from the spec: `checkForDuplicates` from `src/lib/index.js` (not
under `src/`). §4.1 step 1: fail iff two entries share the same
(dataSource, type, field) triple. -/
def hasDuplicateKeys : List Resolver → Bool
  | [] => false
  | r :: rs => rs.any (fun s => dupKey s == dupKey r) || hasDuplicateKeys rs

/-- JS `a || b` on an optional string: `undefined` and `""` are falsy. -/
def orFalsy : Option String → String → String
  | none, d => d
  | some s, d => if s = "" then d else s

/-- Ramda `pick(['type', 'field'])`: keep only the `type` and `field` keys
(an absent key stays absent). -/
def pickTypeField (r : Resolver) : Resolver :=
  { type := r.type, field := r.field }

/-- First-occurrence deduplication, as performed by Ramda `difference`. -/
def dedup : List Resolver → List Resolver → List Resolver
  | [], _ => []
  | x :: xs, seen =>
    if x ∈ seen then dedup xs seen else x :: dedup xs (x :: seen)

/-- Ramda `difference(xs, ys)`: the set (no duplicates, first-occurrence
order) of elements of `xs` not structurally equal to any element of `ys`. -/
def rDifference (xs ys : List Resolver) : List Resolver :=
  dedup (xs.filter (fun x => decide (x ∉ ys))) []

/-- Lines 16-20: `merge(resolver, \x7b type: resolver.typeName, field:
resolver.fieldName, dataSource: resolver.dataSourceName \x7d)`. -/
def aliasDeployed (r : Resolver) : Resolver :=
  { r with type := r.typeName, field := r.fieldName, dataSource := r.dataSourceName }

/-- Lines 13-35: one fully drained `listAll`/`listResolvers` fetch per entry
of `config.mappingTemplates` (keyed by that entry's `type`), flattened and
aliased. `listAll` is modelled from the spec (§4.1 step 2: pagination fully
drained) as `env.deployed` returning the complete list per type name. -/
def fetchDeployed (env : Env) (mts : List Resolver) : List Resolver :=
  ((mts.map (fun mt => env.deployed mt.type)).flatten).map aliasDeployed

/-- The `listResolvers` calls the fetch stage issues, one per entry. -/
def fetchCalls (apiId : Option String) (mts : List Resolver) : List ApiCall :=
  mts.map (fun mt => .listResolvers apiId mt.type)

/-- The fixed Lambda-invoke request template, exactly the string literal at
line 49 of `src/lib/resolvers.js` (spaces and trailing parenthesis
included). -/
def lambdaRequestTemplate : String :=
  "\x7b \"version\": \"2017-02-28\", \"operation\": \"Invoke\", \"payload\": $util.toJson($context.arguments) \x7d)"

/-- The fixed Lambda response template (line 50). -/
def lambdaResponseTemplate : String :=
  "$util.toJson($context.result)"

/-- Lines 38-54: resolve `request`/`response` through `readIfFile`; if either
is nil, fetch the data source's type, and when it is `AWS_LAMBDA` fill the
falsy template(s) with the fixed Lambda templates. Returns the templated
resolver and the `getDataSource` calls this branch issued (the call is
assumed to succeed; its failure modes are outside the claims). -/
def resolveTemplates (env : Env) (apiId : Option String) (r : Resolver) :
    Resolver × List ApiCall :=
  let req := readIfFile env.fs r.request
  let res := readIfFile env.fs r.response
  if req.isNone || res.isNone then
    let calls := [ApiCall.getDataSource apiId r.dataSource]
    if env.dsType r.dataSource = "AWS_LAMBDA" then
      ({ r with requestMappingTemplate := some (orFalsy req lambdaRequestTemplate),
                responseMappingTemplate := some (orFalsy res lambdaResponseTemplate) },
        calls)
    else
      ({ r with requestMappingTemplate := req, responseMappingTemplate := res }, calls)
  else
    ({ r with requestMappingTemplate := req, responseMappingTemplate := res }, [])

/-- Lines 58-71: the computed mode. `find` a deployed resolver with matching
(type, field); mode is `create` when none is found, `ignore` when the found
one agrees on the five compared keys, `update` otherwise. -/
def classifyMode (deployedResolvers : List Resolver) (r : Resolver) : String :=
  let dep := deployedResolvers.find? (fun d => d.type == r.type && d.field == r.field)
  let resolverEquals :=
    match dep with
    | none => false
    | some d => equalsByKeys5 d r
  if !resolverEquals then (if dep.isNone then "create" else "update") else "ignore"

/-- Line 72: `merge(resolver, \x7b mode \x7d)`. -/
def classify (deployedResolvers : List Resolver) (r : Resolver) : Resolver :=
  { r with mode := some (classifyMode deployedResolvers r) }

/-- Lines 80-87: map each referenced pipeline function name to its
`functionId` through `config.functions`; a failed `find` or a missing
`functionId` aborts. -/
def mapPipelineFunctions (fns : List FuncEntry) : List String → Except SyncError (List String)
  | [] => .ok []
  | n :: ns =>
    match fns.find? (fun f => f.name == some n) with
    | none => .error (.functionFindFailed n)
    | some f =>
      match f.functionId with
      | none => .error (.functionIdMissing n)
      | some fid => (mapPipelineFunctions fns ns).map (fid :: ·)

/-- Lines 77-88: the `pipelineFunctions` local — computed only for a PIPELINE
resolver with a non-nil `pipelineConfig.functions`. -/
def computePipelineFunctions (cfg : Config) (r : Resolver) :
    Except SyncError (Option (List String)) :=
  if r.kind == some "PIPELINE" then
    match r.pipelineConfig with
    | some (some names) => (mapPipelineFunctions cfg.functions names).map some
    | _ => .ok none
  else .ok none

/-- Lines 77-112: build the request params and run the kind-dependent
validations (everything of the apply branch except the mode dispatch). -/
def applyValidate (cfg : Config) (r : Resolver) : Except SyncError Params :=
  match computePipelineFunctions cfg r with
  | .error e => .error e
  | .ok pipelineFunctions =>
    let params0 : Params :=
      { apiId := cfg.apiId
        fieldName := r.field
        requestMappingTemplate := r.requestMappingTemplate
        responseMappingTemplate := r.responseMappingTemplate
        typeName := r.type
        kind := r.kind }
    if r.kind == some "PIPELINE" then
      if r.dataSource.isSome then
        .error (.pipelineWithDataSource r.field)
      else
        .ok { params0 with pipelineConfig := some pipelineFunctions }
    else
      if r.dataSource.isNone then
        .error (.missingDataSource r.field)
      else
        .ok { params0 with dataSourceName := r.dataSource }

/-- Lines 114-120: dispatch `createResolver` / `updateResolver` by mode;
mode `ignore` (or anything else) dispatches nothing. -/
def dispatchCall (mode : Option String) (p : Params) : Option ApiCall :=
  if mode == some "create" then some (.createResolver p)
  else if mode == some "update" then some (.updateResolver p)
  else none

/-- Lines 76-121: one branch of the apply `Promise.all`; returns the call it
dispatched (if any) and the resolver record it resolves with (line 121). -/
def applyResolver (cfg : Config) (r : Resolver) :
    Except SyncError (Option ApiCall × Resolver) :=
  (applyValidate cfg r).map (fun p => (dispatchCall r.mode p, r))

/-- The `resolversWithTemplates` stage (lines 37-56). -/
def resolversWithTemplatesOf (env : Env) (cfg : Config) : List Resolver :=
  cfg.mappingTemplates.map (fun mt => (resolveTemplates env cfg.apiId mt).1)

/-- The `getDataSource` calls the templating stage issues. -/
def templateCallsOf (env : Env) (cfg : Config) : List ApiCall :=
  (cfg.mappingTemplates.map (fun mt => (resolveTemplates env cfg.apiId mt).2)).flatten

/-- The `resolversToDeploy` stage (lines 58-73). -/
def resolversToDeployOf (env : Env) (cfg : Config) : List Resolver :=
  (resolversWithTemplatesOf env cfg).map
    (classify (fetchDeployed env cfg.mappingTemplates))

/-- The calls the apply branches dispatch (each branch runs to its own
completion or throw; `Promise.all` does not cancel siblings). -/
def applyCallsOf (env : Env) (cfg : Config) : List ApiCall :=
  (resolversToDeployOf env cfg).filterMap (fun r =>
    match applyResolver cfg r with
    | .ok (c, _) => c
    | .error _ => none)

/-- The first apply-branch error, in declaration order. -/
def applyErrorOf (env : Env) (cfg : Config) : Option SyncError :=
  (resolversToDeployOf env cfg).findSome? (fun r =>
    match applyResolver cfg r with
    | .error e => some e
    | .ok _ => none)

/-- `createOrUpdateResolvers` (lines 11-124): duplicate check, fetch of
deployed resolvers, template resolution, mode classification and apply;
returns the resolver list with modes (or the first error) together with the
trace of remote calls issued. The duplicate check throws synchronously
before any remote call. -/
def synchronize (env : Env) (cfg : Config) :
    Except SyncError (List Resolver) × List ApiCall :=
  if hasDuplicateKeys cfg.mappingTemplates then
    (.error .duplicateKey, [])
  else
    let calls := fetchCalls cfg.apiId cfg.mappingTemplates ++ templateCallsOf env cfg
      ++ applyCallsOf env cfg
    match applyErrorOf env cfg with
    | some e => (.error e, calls)
    | none => (.ok (resolversToDeployOf env cfg), calls)

/-- Lines 134-137: `difference(state.mappingTemplates, map(pick(['type',
'field']), config.mappingTemplates))` — note only the config side is
projected. `state` stands for `state.mappingTemplates`. -/
def obsoleteResolvers (cfg : Config) (state : List Resolver) : List Resolver :=
  rDifference state (cfg.mappingTemplates.map pickTypeField)

/-- `removeObsoleteResolvers` (lines 133-157): delete each obsolete entry,
swallowing `NotFoundException`; any other error code propagates (first in
list order). `deleteOutcome apiId typeName fieldName` is `none` on success
and `some code` when the remote call fails with error code `code`. -/
def removeObsoleteResolvers (cfg : Config) (state : List Resolver)
    (deleteOutcome : Option String → Option String → Option String → Option String) :
    Except String Unit × List ApiCall :=
  let obsolete := obsoleteResolvers cfg state
  let calls := obsolete.map (fun r => ApiCall.deleteResolver cfg.apiId r.type r.field)
  let firstErr := obsolete.findSome? (fun r =>
    match deleteOutcome cfg.apiId r.type r.field with
    | none => none
    | some code => if code = "NotFoundException" then none else some code)
  (match firstErr with
   | some code => .error code
   | none => .ok (), calls)

end AppSync

namespace AppSync

/-! ## Helper lemmas -/

/-- The five-key agreement the classification stage checks, as a proposition. -/
def FiveEq (d r : Resolver) : Prop :=
  d.dataSource = r.dataSource ∧ d.type = r.type ∧ d.field = r.field ∧
    d.responseMappingTemplate = r.responseMappingTemplate ∧
    d.requestMappingTemplate = r.requestMappingTemplate

instance (d r : Resolver) : Decidable (FiveEq d r) := by
  unfold FiveEq; infer_instance

theorem equalsByKeys5_iff (d r : Resolver) : equalsByKeys5 d r = true ↔ FiveEq d r := by
  simp [equalsByKeys5, FiveEq, and_assoc]

theorem classifyMode_eq_create (S : List Resolver) (r : Resolver)
    (h : S.find? (fun d => d.type == r.type && d.field == r.field) = none) :
    classifyMode S r = "create" := by
  simp [classifyMode, h]

theorem classifyMode_eq_ignore (S : List Resolver) (r d0 : Resolver)
    (h : S.find? (fun d => d.type == r.type && d.field == r.field) = some d0)
    (he : equalsByKeys5 d0 r = true) :
    classifyMode S r = "ignore" := by
  simp [classifyMode, h, he]

theorem classifyMode_eq_update (S : List Resolver) (r d0 : Resolver)
    (h : S.find? (fun d => d.type == r.type && d.field == r.field) = some d0)
    (he : equalsByKeys5 d0 r = false) :
    classifyMode S r = "update" := by
  simp [classifyMode, h, he]

theorem find?_match_unique (S : List Resolver) (r d : Resolver)
    (huniq : ∀ d1 ∈ S, ∀ d2 ∈ S, (d1.type = r.type ∧ d1.field = r.field) →
      (d2.type = r.type ∧ d2.field = r.field) → d1 = d2)
    (hd : d ∈ S) (ht : d.type = r.type) (hf : d.field = r.field) :
    S.find? (fun d => d.type == r.type && d.field == r.field) = some d := by
  cases h : S.find? (fun d => d.type == r.type && d.field == r.field) with
  | none =>
    exact absurd (List.find?_eq_none.mp h d hd) (by simp [ht, hf])
  | some d0 =>
    have hp := List.find?_some h
    have hm := List.mem_of_find?_eq_some h
    simp only [Bool.and_eq_true, beq_iff_eq] at hp
    rw [huniq d0 hm d hd hp ⟨ht, hf⟩]

end AppSync

namespace AppSync

/-! ## C1: create / update / ignore classification -/

/-- C1: for every declared resolver `r` and fetched deployed set `S` (which,
per the remote data model, holds at most one resolver per (type, field)
key — the `huniq` hypothesis), the computed mode is `create` iff no member
of `S` has `r`'s (type, field); `update` iff such a member exists but
differs from `r` in at least one of dataSource, type, field,
responseMappingTemplate, requestMappingTemplate (string equality); and
`ignore` iff all five of those fields match exactly. -/
theorem classify_mode_classification (S : List Resolver) (r : Resolver)
    (huniq : ∀ d1 ∈ S, ∀ d2 ∈ S, (d1.type = r.type ∧ d1.field = r.field) →
      (d2.type = r.type ∧ d2.field = r.field) → d1 = d2) :
    ((classify S r).mode = some "create" ↔
      ∀ d ∈ S, ¬(d.type = r.type ∧ d.field = r.field)) ∧
    ((classify S r).mode = some "update" ↔
      ∃ d ∈ S, (d.type = r.type ∧ d.field = r.field) ∧ ¬ FiveEq d r) ∧
    ((classify S r).mode = some "ignore" ↔
      ∃ d ∈ S, (d.type = r.type ∧ d.field = r.field) ∧ FiveEq d r) := by
  have hmode : (classify S r).mode = some (classifyMode S r) := rfl
  cases h : S.find? (fun d => d.type == r.type && d.field == r.field) with
  | none =>
    have hno : ∀ d ∈ S, ¬(d.type = r.type ∧ d.field = r.field) := by
      intro d hd hc
      exact absurd (List.find?_eq_none.mp h d hd) (by simp [hc.1, hc.2])
    rw [hmode, classifyMode_eq_create S r h]
    refine ⟨by simpa using hno, ?_, ?_⟩
    · constructor
      · intro hc; exact absurd hc (by simp)
      · rintro ⟨d, hd, hc, -⟩; exact absurd hc (hno d hd)
    · constructor
      · intro hc; exact absurd hc (by simp)
      · rintro ⟨d, hd, hc, -⟩; exact absurd hc (hno d hd)
  | some d0 =>
    have hp := List.find?_some h
    have hm := List.mem_of_find?_eq_some h
    simp only [Bool.and_eq_true, beq_iff_eq] at hp
    cases he : equalsByKeys5 d0 r with
    | true =>
      have hfe : FiveEq d0 r := (equalsByKeys5_iff d0 r).mp he
      rw [hmode, classifyMode_eq_ignore S r d0 h he]
      refine ⟨?_, ?_, ?_⟩
      · constructor
        · intro hc; exact absurd hc (by simp)
        · intro hall; exact absurd hp (hall d0 hm)
      · constructor
        · intro hc; exact absurd hc (by simp)
        · rintro ⟨d, hd, hc, hne⟩
          rw [huniq d hd d0 hm hc hp] at hne
          exact absurd hfe hne
      · exact ⟨fun _ => ⟨d0, hm, hp, hfe⟩, fun _ => rfl⟩
    | false =>
      have hfe : ¬ FiveEq d0 r := fun hc =>
        by simp [(equalsByKeys5_iff d0 r).mpr hc] at he
      rw [hmode, classifyMode_eq_update S r d0 h he]
      refine ⟨?_, ?_, ?_⟩
      · constructor
        · intro hc; exact absurd hc (by simp)
        · intro hall; exact absurd hp (hall d0 hm)
      · exact ⟨fun _ => ⟨d0, hm, hp, hfe⟩, fun _ => rfl⟩
      · constructor
        · intro hc; exact absurd hc (by simp)
        · rintro ⟨d, hd, hc, hq⟩
          rw [huniq d hd d0 hm hc hp] at hq
          exact absurd hq hfe

/-- Fixture: a deployed resolver agreeing with `c1declared` on everything the
classifier compares. -/
def c1deployed : Resolver :=
  { typeName := some "Query"
    fieldName := some "getItem"
    dataSourceName := some "DS1"
    type := some "Query"
    field := some "getItem"
    dataSource := some "DS1"
    requestMappingTemplate := some "req"
    responseMappingTemplate := some "res" }

/-- Fixture: a declared, already-templated resolver. -/
def c1declared : Resolver :=
  { type := some "Query"
    field := some "getItem"
    dataSource := some "DS1"
    requestMappingTemplate := some "req"
    responseMappingTemplate := some "res" }

/-- Witness for C1 at a concrete deployed set and declared resolver. -/
theorem classify_mode_classification_witness :
    (classify [c1deployed] c1declared).mode = some "ignore" :=
  (classify_mode_classification [c1deployed] c1declared
      (by decide)).2.2.mpr ⟨c1deployed, by decide⟩

end AppSync

namespace AppSync

/-! ## C2: obsolete-set computation -/

theorem mem_dedup (a : Resolver) : ∀ (l seen : List Resolver),
    a ∈ dedup l seen ↔ a ∈ l ∧ a ∉ seen := by
  intro l
  induction l with
  | nil => intro seen; simp [dedup]
  | cons x xs ih =>
    intro seen
    by_cases hx : x ∈ seen
    · rw [dedup, if_pos hx, ih seen]
      constructor
      · rintro ⟨h1, h2⟩; exact ⟨List.mem_cons_of_mem x h1, h2⟩
      · rintro ⟨h1, h2⟩
        rcases List.mem_cons.mp h1 with rfl | h1
        · exact absurd hx h2
        · exact ⟨h1, h2⟩
    · rw [dedup, if_neg hx]
      constructor
      · intro h
        rcases List.mem_cons.mp h with rfl | h
        · exact ⟨List.mem_cons_self a xs, hx⟩
        · have := (ih (x :: seen)).mp h
          exact ⟨List.mem_cons_of_mem x this.1,
            fun hc => this.2 (List.mem_cons_of_mem x hc)⟩
      · rintro ⟨h1, h2⟩
        rcases List.mem_cons.mp h1 with rfl | h1
        · exact List.mem_cons_self a _
        · by_cases hax : a = x
          · subst hax; exact List.mem_cons_self a _
          · exact List.mem_cons_of_mem x
              ((ih (x :: seen)).mpr ⟨h1, by simp [hax, h2]⟩)

/-- C2 (amended): the code projects only the config side. The delete calls
are issued exactly for the set difference of the whole (unprojected) state
entries minus the projected config pairs; an entry of state escapes deletion
iff the entry itself — all of its fields — structurally equals the
\x7b type, field \x7d projection of some config entry. -/
theorem removeObsolete_unprojected_difference (cfg : Config) (state : List Resolver)
    (del : Option String → Option String → Option String → Option String) :
    ((removeObsoleteResolvers cfg state del).2 =
      (obsoleteResolvers cfg state).map
        (fun r => .deleteResolver cfg.apiId r.type r.field)) ∧
    (∀ s, s ∈ obsoleteResolvers cfg state ↔
      s ∈ state ∧ s ∉ cfg.mappingTemplates.map pickTypeField) := by
  refine ⟨rfl, fun s => ?_⟩
  rw [obsoleteResolvers, rDifference, mem_dedup, List.mem_filter]
  simp

/-- Fixture: a config declaring the (Query, getX) pair. -/
def c2config : Config :=
  { apiId := some "api"
    mappingTemplates := [{ type := some "Query", field := some "getX",
                           dataSource := some "DS1" }] }

/-- Fixture: a state entry whose (type, field) pair is declared in
`c2config` but which carries an extra `dataSource` field. -/
def c2state : Resolver :=
  { type := some "Query", field := some "getX", dataSource := some "DS1" }

/-- Counterexample to C2 as stated: the (type, field) pair of the state entry
appears in the config, yet a deleteResolver call is issued for it, because
the state side of the difference is not projected to \x7b type, field \x7d. -/
theorem removeObsolete_projection_counterexample :
    (∃ mt ∈ c2config.mappingTemplates,
      mt.type = c2state.type ∧ mt.field = c2state.field) ∧
    (removeObsoleteResolvers c2config [c2state] (fun _ _ _ => none)).2 =
      [.deleteResolver (some "api") (some "Query") (some "getX")] := by
  constructor
  · exact ⟨c2config.mappingTemplates.head (by decide), by decide⟩
  · rfl

end AppSync

namespace AppSync

/-! ## C3: Lambda default-template fallback -/

/-- The request template string the claim asserts, written from the spec's
words for comparison with the string the code actually uses. -/
def specLambdaRequestTemplate : String :=
  "\x7b\"version\": \"2017-02-28\", \"operation\": \"Invoke\", \"payload\": $util.toJson($context.arguments)\x7d"

/-- C3 (amended): for a data source resolving to type `AWS_LAMBDA`, a request
(resp. response) template that is absent after file resolution is filled
with the code's literal Lambda-invoke string — which carries a leading
space after the opening brace and a stray trailing parenthesis, i.e.
`\x7b "version": "2017-02-28", "operation": "Invoke", "payload":
$util.toJson($context.arguments) \x7d)` — resp. with
`$util.toJson($context.result)`; for a non-Lambda data source, missing
templates remain nil. -/
theorem resolveTemplates_lambda_fallback (env : Env) (apiId : Option String)
    (r : Resolver) :
    (env.dsType r.dataSource = "AWS_LAMBDA" → r.request = none →
      (resolveTemplates env apiId r).1.requestMappingTemplate =
        some lambdaRequestTemplate) ∧
    (env.dsType r.dataSource = "AWS_LAMBDA" → r.response = none →
      (resolveTemplates env apiId r).1.responseMappingTemplate =
        some lambdaResponseTemplate) ∧
    (¬ env.dsType r.dataSource = "AWS_LAMBDA" → r.request = none →
      (resolveTemplates env apiId r).1.requestMappingTemplate = none) ∧
    (¬ env.dsType r.dataSource = "AWS_LAMBDA" → r.response = none →
      (resolveTemplates env apiId r).1.responseMappingTemplate = none) := by
  refine ⟨fun hl hq => ?_, fun hl hs => ?_, fun hl hq => ?_, fun hl hs => ?_⟩
  · rw [resolveTemplates]
    simp [readIfFile, hq, hl, orFalsy]
  · rw [resolveTemplates]
    simp [readIfFile, hs, hl, orFalsy]
  · rw [resolveTemplates]
    simp [readIfFile, hq, hl]
  · rw [resolveTemplates]
    simp [readIfFile, hs, hl]

/-- Fixture: an environment whose every data source is a Lambda and whose
file system is empty. -/
def c3env : Env :=
  { fs := fun _ => none, dsType := fun _ => "AWS_LAMBDA", deployed := fun _ => [] }

/-- Fixture: a declared resolver with no request/response template. -/
def c3resolver : Resolver :=
  { type := some "Query", field := some "getItem", dataSource := some "L" }

/-- Counterexample to C3 as stated: the filled request template is the code's
literal string from line 49, which is not the string the claim asserts (the
code's string has a space after the opening brace and a stray trailing
parenthesis). -/
theorem lambda_request_template_counterexample :
    (resolveTemplates c3env (some "api") c3resolver).1.requestMappingTemplate =
        some lambdaRequestTemplate ∧
      lambdaRequestTemplate ≠ specLambdaRequestTemplate := by
  exact ⟨rfl, by decide⟩

/-- Witness for the amended C3 at a concrete Lambda resolver and a concrete
non-Lambda one. -/
theorem resolveTemplates_lambda_fallback_witness :
    (resolveTemplates c3env (some "api") c3resolver).1.requestMappingTemplate =
        some lambdaRequestTemplate ∧
      (resolveTemplates { c3env with dsType := fun _ => "AMAZON_DYNAMODB" }
          (some "api") c3resolver).1.responseMappingTemplate = none :=
  ⟨(resolveTemplates_lambda_fallback c3env (some "api") c3resolver).1 rfl rfl,
    (resolveTemplates_lambda_fallback { c3env with dsType := fun _ => "AMAZON_DYNAMODB" }
        (some "api") c3resolver).2.2.2 (by decide) rfl⟩

end AppSync

namespace AppSync

/-! ## C4: mode `ignore` and the apply-stage validations -/

theorem applyValidate_mode_invariant (cfg : Config) (r : Resolver)
    (m : Option String) :
    applyValidate cfg { r with mode := m } = applyValidate cfg r := rfl

/-- C4 (amended): a resolver with mode `ignore` never has a `createResolver`
or `updateResolver` dispatched for it; but the apply-stage fatal
configuration errors are raised independently of the computed mode — the
apply branch runs its validations for every declared resolver, `ignore`
included, and only the final dispatch is gated on the mode. -/
theorem applyResolver_ignore_no_call_validations_mode_blind (cfg : Config)
    (r : Resolver) (h : r.mode = some "ignore") :
    (∀ c rr, applyResolver cfg r = .ok (c, rr) → c = none) ∧
    (∀ m e, applyResolver cfg { r with mode := m } = .error e ↔
      applyResolver cfg r = .error e) := by
  constructor
  · intro c rr h2
    cases hv : applyValidate cfg r with
    | error e =>
      rw [applyResolver, hv] at h2
      exact absurd h2 (by simp [Except.map])
    | ok p =>
      rw [applyResolver, hv] at h2
      simp only [Except.map, Except.ok.injEq, Prod.mk.injEq] at h2
      rw [← h2.1, h]
      rfl
  · intro m e
    rw [applyResolver, applyResolver, applyValidate_mode_invariant]
    cases hv : applyValidate cfg r <;> simp [Except.map]

/-- Fixture: a unit (default-kind) resolver with mode `ignore` and no
dataSource — exactly the shape the deployed state can legitimately put in
`ignore` mode (a deployed pipeline resolver exposes no dataSourceName). -/
def c4resolver : Resolver :=
  { type := some "Query", field := some "getItem", mode := some "ignore" }

/-- Fixture: an empty config. -/
def c4config : Config := { apiId := some "api" }

/-- Counterexample to C4 as stated: a mode-`ignore` resolver still raises the
unit-resolver-missing-dataSource fatal error. -/
theorem apply_ignore_error_counterexample :
    c4resolver.mode = some "ignore" ∧
      applyResolver c4config c4resolver =
        .error (.missingDataSource (some "getItem")) :=
  ⟨rfl, rfl⟩

/-- Fixture: a valid unit resolver in mode `ignore`. -/
def c4okResolver : Resolver :=
  { type := some "Query", field := some "getItem", dataSource := some "DS1",
    mode := some "ignore" }

/-- Witness for the amended C4 at a concrete ignore-mode resolver. -/
theorem applyResolver_ignore_amended_witness :
    c4okResolver.mode = some "ignore" ∧
      (∀ c rr, applyResolver c4config c4okResolver = .ok (c, rr) → c = none) ∧
      (∀ m e, applyResolver c4config { c4okResolver with mode := m } = .error e ↔
        applyResolver c4config c4okResolver = .error e) :=
  ⟨rfl,
    (applyResolver_ignore_no_call_validations_mode_blind c4config c4okResolver rfl).1,
    (applyResolver_ignore_no_call_validations_mode_blind c4config c4okResolver rfl).2⟩

end AppSync

namespace AppSync

/-! ## C5: deployed-resolver fetching -/

/-- Recognizer for `listResolvers` calls in a trace. -/
def isListResolversCall : ApiCall → Bool
  | .listResolvers _ _ => true
  | _ => false

/-- First-occurrence deduplication of a list of optional strings (used to
count the distinct declared type names). -/
def distinctOptStrings : List (Option String) → List (Option String) → List (Option String)
  | [], _ => []
  | x :: xs, seen =>
    if x ∈ seen then distinctOptStrings xs seen
    else x :: distinctOptStrings xs (x :: seen)

theorem resolveTemplates_snd (env : Env) (a : Option String) (r : Resolver) :
    ∀ c ∈ (resolveTemplates env a r).2, c = .getDataSource a r.dataSource := by
  rw [resolveTemplates]
  split
  · split <;> simp
  · simp

theorem dispatchCall_shape (m : Option String) (p : Params) (c : ApiCall)
    (h : dispatchCall m p = some c) :
    c = .createResolver p ∨ c = .updateResolver p := by
  unfold dispatchCall at h
  split at h
  · exact Or.inl (Option.some.inj h).symm
  · split at h
    · exact Or.inr (Option.some.inj h).symm
    · exact absurd h (by simp)

theorem applyCallsOf_shape (env : Env) (cfg : Config) :
    ∀ c ∈ applyCallsOf env cfg,
      (∃ p, c = .createResolver p) ∨ (∃ p, c = .updateResolver p) := by
  intro c hc
  rw [applyCallsOf, List.mem_filterMap] at hc
  obtain ⟨r, -, hr⟩ := hc
  cases hv : applyValidate cfg r with
  | error e => rw [applyResolver, hv] at hr; exact absurd hr (by simp [Except.map])
  | ok p =>
    rw [applyResolver, hv] at hr
    simp only [Except.map] at hr
    rcases dispatchCall_shape r.mode p c hr with h | h
    · exact Or.inl ⟨p, h⟩
    · exact Or.inr ⟨p, h⟩

theorem synchronize_calls (env : Env) (cfg : Config)
    (h : hasDuplicateKeys cfg.mappingTemplates = false) :
    (synchronize env cfg).2 = fetchCalls cfg.apiId cfg.mappingTemplates ++
      templateCallsOf env cfg ++ applyCallsOf env cfg := by
  rw [synchronize, if_neg (by simp [h])]
  cases happly : applyErrorOf env cfg <;> simp [happly]

/-- C5 (amended): deployed resolvers are fetched by issuing one (fully
drained, per the spec-modelled `listAll`) `listResolvers` request per entry
of `config.mappingTemplates` — not per distinct typeName: an entry whose
typeName repeats causes a repeated fetch — and the results are flattened
into one list in which every element exposes `type`/`field`/`dataSource`
equal to its `typeName`/`fieldName`/`dataSourceName`. -/
theorem synchronize_fetch_per_entry (env : Env) (cfg : Config)
    (h : hasDuplicateKeys cfg.mappingTemplates = false) :
    ((synchronize env cfg).2.filter isListResolversCall =
      cfg.mappingTemplates.map (fun mt => .listResolvers cfg.apiId mt.type)) ∧
    (∀ d ∈ fetchDeployed env cfg.mappingTemplates,
      d.type = d.typeName ∧ d.field = d.fieldName ∧ d.dataSource = d.dataSourceName) := by
  constructor
  · rw [synchronize_calls env cfg h, List.filter_append, List.filter_append]
    have h1 : (fetchCalls cfg.apiId cfg.mappingTemplates).filter isListResolversCall =
        fetchCalls cfg.apiId cfg.mappingTemplates := by
      rw [List.filter_eq_self]
      intro c hc
      rw [fetchCalls, List.mem_map] at hc
      obtain ⟨mt, -, rfl⟩ := hc
      rfl
    have h2 : (templateCallsOf env cfg).filter isListResolversCall = [] := by
      rw [List.filter_eq_nil_iff]
      intro c hc
      rw [templateCallsOf, List.mem_flatten] at hc
      obtain ⟨sub, hsub, hcs⟩ := hc
      rw [List.mem_map] at hsub
      obtain ⟨mt, -, rfl⟩ := hsub
      rw [resolveTemplates_snd env cfg.apiId mt c hcs]
      simp [isListResolversCall]
    have h3 : (applyCallsOf env cfg).filter isListResolversCall = [] := by
      rw [List.filter_eq_nil_iff]
      intro c hc
      rcases applyCallsOf_shape env cfg c hc with ⟨p, rfl⟩ | ⟨p, rfl⟩ <;>
        simp [isListResolversCall]
    rw [h1, h2, h3, List.append_nil, List.append_nil, fetchCalls]
  · intro d hd
    rw [fetchDeployed, List.mem_map] at hd
    obtain ⟨raw, -, rfl⟩ := hd
    exact ⟨rfl, rfl, rfl⟩

/-- Fixture: an inert environment. -/
def c5env : Env :=
  { fs := fun _ => none, dsType := fun _ => "NONE", deployed := fun _ => [] }

/-- Fixture: two declared specs sharing one typeName. -/
def c5config : Config :=
  { apiId := some "api"
    mappingTemplates :=
      [{ type := some "Query", field := some "a", dataSource := some "DS1",
         request := some "r1", response := some "s1" },
       { type := some "Query", field := some "b", dataSource := some "DS1",
         request := some "r2", response := some "s2" }] }

/-- Counterexample to C5 as stated: two declared specs with one distinct
typeName trigger two `listResolvers` fetches, not one. -/
theorem fetch_count_counterexample :
    ((synchronize c5env c5config).2.filter isListResolversCall).length = 2 ∧
      (distinctOptStrings (c5config.mappingTemplates.map (fun mt => mt.type)) []).length = 1 :=
  ⟨rfl, rfl⟩

/-- Witness for the amended C5 at the concrete two-entry config. -/
theorem synchronize_fetch_per_entry_witness :
    hasDuplicateKeys c5config.mappingTemplates = false ∧
      (synchronize c5env c5config).2.filter isListResolversCall =
        c5config.mappingTemplates.map (fun mt => .listResolvers c5config.apiId mt.type) :=
  ⟨by decide, (synchronize_fetch_per_entry c5env c5config (by decide)).1⟩

end AppSync

namespace AppSync

/-! ## C6: duplicate declared keys fail before any remote call -/

theorem hasDuplicateKeys_iff (l : List Resolver) :
    hasDuplicateKeys l = true ↔ ¬ l.Pairwise (fun a b => dupKey a ≠ dupKey b) := by
  induction l with
  | nil => simp [hasDuplicateKeys]
  | cons r rs ih =>
    rw [hasDuplicateKeys, List.pairwise_cons]
    simp only [Bool.or_eq_true, List.any_eq_true, beq_iff_eq, ih, not_and_or]
    constructor
    · rintro (⟨s, hs, he⟩ | hrest)
      · exact Or.inl (fun hall => hall s hs he.symm)
      · exact Or.inr hrest
    · rintro (hne | hrest)
      · push_neg at hne
        obtain ⟨s, hs, he⟩ := hne
        exact Or.inl ⟨s, hs, he.symm⟩
      · exact Or.inr hrest

/-- C6: if two entries of `config.mappingTemplates` share the same
(dataSource, type, field) triple, synchronize fails with the duplicate-key
error and its call trace is empty — no listResolvers, getDataSource,
createResolver or updateResolver call is ever issued. The duplicate check
itself (`checkForDuplicates`, `src/lib/index.js`) is modelled from the
spec; its position as the synchronous first statement of
`createOrUpdateResolvers` (line 12) is from the source. -/
theorem synchronize_duplicate_fails_before_calls (env : Env) (cfg : Config)
    (h : ¬ cfg.mappingTemplates.Pairwise (fun a b => dupKey a ≠ dupKey b)) :
    (synchronize env cfg).1 = .error .duplicateKey ∧ (synchronize env cfg).2 = [] := by
  have hd : hasDuplicateKeys cfg.mappingTemplates = true :=
    (hasDuplicateKeys_iff cfg.mappingTemplates).mpr h
  rw [synchronize, if_pos hd]
  exact ⟨rfl, rfl⟩

/-- Fixture: a config with two entries sharing (dataSource, type, field). -/
def c6config : Config :=
  { apiId := some "api"
    mappingTemplates :=
      [{ type := some "Query", field := some "a", dataSource := some "DS1",
         request := some "r1" },
       { type := some "Query", field := some "a", dataSource := some "DS1",
         request := some "r2" }] }

/-- Witness for C6 at a concrete duplicated config. -/
theorem synchronize_duplicate_fails_witness :
    (synchronize c5env c6config).1 = .error .duplicateKey ∧
      (synchronize c5env c6config).2 = [] :=
  synchronize_duplicate_fails_before_calls c5env c6config (by decide)

end AppSync

namespace AppSync

/-! ## C7: pipeline resolver validation -/

theorem mapPipelineFunctions_error_of_unmatched (fns : List FuncEntry)
    (names : List String) (n : String) (hn : n ∈ names)
    (hfind : fns.find? (fun f => f.name == some n) = none) :
    ∃ e, mapPipelineFunctions fns names = .error e := by
  induction names with
  | nil => cases hn
  | cons m ms ih =>
    cases hm : fns.find? (fun f => f.name == some m) with
    | none => exact ⟨.functionFindFailed m, by simp [mapPipelineFunctions, hm]⟩
    | some f =>
      cases hfid : f.functionId with
      | none =>
        exact ⟨.functionIdMissing m, by simp [mapPipelineFunctions, hm, hfid]⟩
      | some fid =>
        have hne : n ≠ m := by
          intro hc
          rw [hc] at hfind
          rw [hfind] at hm
          cases hm
        have hn2 : n ∈ ms := by
          rcases List.mem_cons.mp hn with rfl | hh
          · exact absurd rfl hne
          · exact hh
        obtain ⟨e, he⟩ := ih hn2
        exact ⟨e, by simp [mapPipelineFunctions, hm, hfid, he, Except.map]⟩

/-- C7: for a declared resolver of kind PIPELINE with mode `create` or
`update`: a set `dataSource` makes the apply branch fail; a referenced
pipeline function name with no matching entry in `config.functions` makes
it fail; and with no `pipelineConfig.functions` declared (the
`pipelineConfig` key absent or present without `functions`), the request
dispatched to the remote API carries the empty pipelineConfig `\x7b\x7d`. -/
theorem applyResolver_pipeline_validation (cfg : Config) (r : Resolver)
    (hk : r.kind = some "PIPELINE")
    (hm : r.mode = some "create" ∨ r.mode = some "update") :
    (r.dataSource ≠ none → ∃ e, applyResolver cfg r = .error e) ∧
    (∀ names n, r.pipelineConfig = some (some names) → n ∈ names →
      (∀ f ∈ cfg.functions, f.name ≠ some n) →
      ∃ e, applyResolver cfg r = .error e) ∧
    ((r.pipelineConfig = none ∨ r.pipelineConfig = some none) →
      r.dataSource = none →
      ∃ p, (applyResolver cfg r = .ok (some (.createResolver p), r) ∨
            applyResolver cfg r = .ok (some (.updateResolver p), r)) ∧
        p.pipelineConfig = some none) := by
  refine ⟨?_, ?_, ?_⟩
  · intro hds
    cases hc : computePipelineFunctions cfg r with
    | error e => exact ⟨e, by rw [applyResolver, applyValidate, hc]; rfl⟩
    | ok pf =>
      refine ⟨.pipelineWithDataSource r.field, ?_⟩
      rw [applyResolver, applyValidate, hc]
      simp [hk, Option.isSome_iff_ne_none, hds, Except.map]
  · intro names n hpc hn hnf
    have hfind : cfg.functions.find? (fun f => f.name == some n) = none :=
      List.find?_eq_none.mpr (fun f hf => by simp [hnf f hf])
    obtain ⟨e, he⟩ :=
      mapPipelineFunctions_error_of_unmatched cfg.functions names n hn hfind
    have hc : computePipelineFunctions cfg r = .error e := by
      rw [computePipelineFunctions]
      simp [hk, hpc, he, Except.map]
    exact ⟨e, by rw [applyResolver, applyValidate, hc]; rfl⟩
  · intro hpc hds
    have hc : computePipelineFunctions cfg r = .ok none := by
      rw [computePipelineFunctions]
      rcases hpc with h | h <;> simp [hk, h]
    have hv : applyValidate cfg r = .ok
        { apiId := cfg.apiId
          fieldName := r.field
          requestMappingTemplate := r.requestMappingTemplate
          responseMappingTemplate := r.responseMappingTemplate
          typeName := r.type
          kind := r.kind
          pipelineConfig := some none } := by
      rw [applyValidate, hc]
      simp [hk, hds]
    refine ⟨{ apiId := cfg.apiId
              fieldName := r.field
              requestMappingTemplate := r.requestMappingTemplate
              responseMappingTemplate := r.responseMappingTemplate
              typeName := r.type
              kind := r.kind
              pipelineConfig := some none }, ?_, rfl⟩
    rcases hm with h | h
    · left
      rw [applyResolver, hv]
      simp [Except.map, dispatchCall, h]
    · right
      rw [applyResolver, hv]
      simp [Except.map, dispatchCall, h]

/-- Fixture: a pipeline resolver declaring no pipelineConfig at all. -/
def c7resolver : Resolver :=
  { type := some "Query", field := some "getItem", kind := some "PIPELINE",
    mode := some "create" }

/-- Fixture: a config with no declared functions. -/
def c7config : Config := { apiId := some "api" }

/-- Witness for C7 at a concrete pipeline resolver: the dispatched request
carries the empty pipelineConfig. -/
theorem applyResolver_pipeline_validation_witness :
    c7resolver.kind = some "PIPELINE" ∧
      ∃ p, (applyResolver c7config c7resolver =
              .ok (some (.createResolver p), c7resolver) ∨
            applyResolver c7config c7resolver =
              .ok (some (.updateResolver p), c7resolver)) ∧
        p.pipelineConfig = some none :=
  ⟨rfl, (applyResolver_pipeline_validation c7config c7resolver rfl
      (Or.inl rfl)).2.2 (Or.inl rfl) rfl⟩

end AppSync

namespace AppSync

/-! ## C8: obsolete deletion and its error tolerance -/

/-- C8: a deleteResolver(apiId, typeName, fieldName) call is issued for every
obsolete entry; when every issued delete either succeeds or fails with the
`NotFoundException` error code, the removal completes successfully (the
not-found failures are swallowed); when some delete fails with any other
error code, the whole removal operation fails. -/
theorem removeObsolete_tolerates_notfound (cfg : Config) (state : List Resolver)
    (del : Option String → Option String → Option String → Option String) :
    ((removeObsoleteResolvers cfg state del).2 =
      (obsoleteResolvers cfg state).map
        (fun r => .deleteResolver cfg.apiId r.type r.field)) ∧
    ((∀ r ∈ obsoleteResolvers cfg state,
        del cfg.apiId r.type r.field = none ∨
        del cfg.apiId r.type r.field = some "NotFoundException") →
      (removeObsoleteResolvers cfg state del).1 = .ok ()) ∧
    (∀ r ∈ obsoleteResolvers cfg state,
      ∀ c, del cfg.apiId r.type r.field = some c → c ≠ "NotFoundException" →
      ∃ e, (removeObsoleteResolvers cfg state del).1 = .error e) := by
  refine ⟨rfl, ?_, ?_⟩
  · intro hall
    have hnone : (obsoleteResolvers cfg state).findSome? (fun r =>
        match del cfg.apiId r.type r.field with
        | none => none
        | some code => if code = "NotFoundException" then none else some code) =
          none := by
      rw [List.findSome?_eq_none_iff]
      intro r hr
      rcases hall r hr with h | h <;> simp [h]
    rw [removeObsoleteResolvers]
    simp [hnone]
  · intro r hr c hc hne
    cases hfs : (obsoleteResolvers cfg state).findSome? (fun r =>
        match del cfg.apiId r.type r.field with
        | none => none
        | some code => if code = "NotFoundException" then none else some code) with
    | none =>
      have hcontra := List.findSome?_eq_none_iff.mp hfs r hr
      rw [hc] at hcontra
      simp [hne] at hcontra
    | some code =>
      exact ⟨code, by rw [removeObsoleteResolvers]; simp [hfs]⟩

/-- Fixture: a config declaring nothing, so every state entry is obsolete. -/
def c8config : Config := { apiId := some "api" }

/-- Fixture: a previously deployed resolver entry. -/
def c8state : Resolver := { type := some "Query", field := some "getX" }

/-- Witness for C8: a delete failing with NotFoundException is swallowed. -/
theorem removeObsolete_tolerates_notfound_witness :
    (removeObsoleteResolvers c8config [c8state]
        (fun _ _ _ => some "NotFoundException")).1 = .ok () :=
  (removeObsolete_tolerates_notfound c8config [c8state]
      (fun _ _ _ => some "NotFoundException")).2.1 (by decide)

end AppSync

namespace AppSync

/-! ## C10: pipeline function lists are invisible to the classifier -/

/-- C10: the classifier compares only the five keys dataSource, type, field,
responseMappingTemplate, requestMappingTemplate — never `kind` or pipeline
function lists. A declared PIPELINE resolver matching a deployed resolver
on (type, field) with equal request/response templates and both dataSource
fields nil is classified `ignore`, and the apply branch dispatches no
createResolver/updateResolver call for it, whatever its declared
`pipelineConfig.functions` and whatever function ids the deployed resolver
carries. (`huniq` is the remote data-model invariant: at most one deployed
resolver per (type, field).) -/
theorem pipeline_function_list_not_compared (cfg : Config) (S : List Resolver)
    (r d : Resolver)
    (huniq : ∀ d1 ∈ S, ∀ d2 ∈ S, (d1.type = r.type ∧ d1.field = r.field) →
      (d2.type = r.type ∧ d2.field = r.field) → d1 = d2)
    (_hk : r.kind = some "PIPELINE")
    (hd : d ∈ S) (ht : d.type = r.type) (hf : d.field = r.field)
    (hreq : d.requestMappingTemplate = r.requestMappingTemplate)
    (hres : d.responseMappingTemplate = r.responseMappingTemplate)
    (hds1 : d.dataSource = none) (hds2 : r.dataSource = none) :
    (classify S r).mode = some "ignore" ∧
      (match applyResolver cfg (classify S r) with
        | .ok (c, _) => c
        | .error _ => none) = none := by
  have hfind := find?_match_unique S r d huniq hd ht hf
  have he : equalsByKeys5 d r = true :=
    (equalsByKeys5_iff d r).mpr ⟨by rw [hds1, hds2], ht, hf, hres, hreq⟩
  have hmode : (classify S r).mode = some "ignore" := by
    show some (classifyMode S r) = some "ignore"
    rw [classifyMode_eq_ignore S r d hfind he]
  refine ⟨hmode, ?_⟩
  cases hv : applyValidate cfg (classify S r) with
  | error e => rw [applyResolver, hv]; rfl
  | ok p =>
    rw [applyResolver, hv]
    show dispatchCall (classify S r).mode p = none
    rw [hmode]
    rfl

/-- Fixture: a deployed pipeline resolver (no dataSourceName, its own remote
function-id list is invisible to the five compared keys). -/
def c10deployed : Resolver :=
  { type := some "Query", field := some "getItem",
    requestMappingTemplate := some "req", responseMappingTemplate := some "res" }

/-- Fixture: a declared pipeline resolver with a different function list. -/
def c10declared : Resolver :=
  { type := some "Query", field := some "getItem", kind := some "PIPELINE",
    requestMappingTemplate := some "req", responseMappingTemplate := some "res",
    pipelineConfig := some (some ["fnA", "fnB"]) }

/-- Fixture: a config resolving the declared pipeline function names. -/
def c10config : Config :=
  { apiId := some "api"
    functions := [{ name := some "fnA", functionId := some "id-a" },
                  { name := some "fnB", functionId := some "id-b" }] }

/-- Witness for C10 at a concrete declared/deployed pipeline pair whose
function lists differ. -/
theorem pipeline_function_list_not_compared_witness :
    (classify [c10deployed] c10declared).mode = some "ignore" ∧
      (match applyResolver c10config (classify [c10deployed] c10declared) with
        | .ok (c, _) => c
        | .error _ => none) = none :=
  pipeline_function_list_not_compared c10config [c10deployed] c10declared
    c10deployed (by decide) rfl (by decide) rfl rfl rfl rfl rfl rfl

end AppSync

namespace AppSync

/-! ## C9: idempotence -/

/-- The remote record that reflects the first run's treatment of a templated
resolver `r`: a create/update write stores typeName/fieldName, the
request/response templates and the kind from the dispatched params, with
dataSourceName equal to `r.dataSource` (set explicitly for a unit resolver;
absent — i.e. equal to `r`'s nil dataSource, since a pipeline resolver with
a dataSource fails the run — for a pipeline resolver); a mode-`ignore`
resolver's pre-existing remote record agrees with `r` on every key the
classifier reads, which is exactly the set below. -/
def writtenRec (r : Resolver) : Resolver :=
  { typeName := r.type
    fieldName := r.field
    dataSourceName := r.dataSource
    requestMappingTemplate := r.requestMappingTemplate
    responseMappingTemplate := r.responseMappingTemplate
    kind := r.kind }

/-- The per-type remote listing after a run that produced `rs`. -/
def postDeployedOf (rs : List Resolver) : Option String → List Resolver :=
  fun t => (rs.filter (fun r => r.type == t)).map writtenRec

/-- Recognizer for createResolver/updateResolver calls in a trace. -/
def isCreateOrUpdateCall : ApiCall → Bool
  | .createResolver _ => true
  | .updateResolver _ => true
  | _ => false

theorem synchronize_ok_inversion (env : Env) (cfg : Config) (rs : List Resolver)
    (h : (synchronize env cfg).1 = .ok rs) :
    hasDuplicateKeys cfg.mappingTemplates = false ∧
      rs = resolversToDeployOf env cfg ∧ applyErrorOf env cfg = none := by
  rw [synchronize] at h
  cases hdk : hasDuplicateKeys cfg.mappingTemplates with
  | true => rw [if_pos hdk] at h; cases h
  | false =>
    rw [if_neg (by simp [hdk])] at h
    cases happ : applyErrorOf env cfg with
    | some e => rw [happ] at h; cases h
    | none =>
      rw [happ] at h
      exact ⟨rfl, (Except.ok.inj h).symm, rfl⟩

theorem resolveTemplates_env_congr (env1 env2 : Env) (a : Option String)
    (r : Resolver) (hfs : env2.fs = env1.fs) (hdt : env2.dsType = env1.dsType) :
    resolveTemplates env2 a r = resolveTemplates env1 a r := by
  rw [resolveTemplates, resolveTemplates, hfs, hdt]

theorem resolveTemplates_preserves (env : Env) (a : Option String) (r : Resolver) :
    ((resolveTemplates env a r).1.type = r.type) ∧
      ((resolveTemplates env a r).1.field = r.field) ∧
      ((resolveTemplates env a r).1.dataSource = r.dataSource) ∧
      ((resolveTemplates env a r).1.kind = r.kind) := by
  rw [resolveTemplates]
  split
  · split <;> exact ⟨rfl, rfl, rfl, rfl⟩
  · exact ⟨rfl, rfl, rfl, rfl⟩

theorem applyValidate_classify (cfg : Config) (S : List Resolver) (r : Resolver) :
    applyValidate cfg (classify S r) = applyValidate cfg r := rfl

theorem classifyMode_ignore_of (S : List Resolver) (r : Resolver)
    (hex : ∃ d ∈ S, d.type = r.type ∧ d.field = r.field)
    (hall : ∀ d ∈ S, d.type = r.type → d.field = r.field →
      equalsByKeys5 d r = true) :
    classifyMode S r = "ignore" := by
  obtain ⟨d, hd, ht, hf⟩ := hex
  cases h : S.find? (fun d => d.type == r.type && d.field == r.field) with
  | none => exact absurd (List.find?_eq_none.mp h d hd) (by simp [ht, hf])
  | some d0 =>
    have hp := List.find?_some h
    have hm := List.mem_of_find?_eq_some h
    simp only [Bool.and_eq_true, beq_iff_eq] at hp
    exact classifyMode_eq_ignore S r d0 h (hall d0 hm hp.1 hp.2)

end AppSync

namespace AppSync

/-- C9 (amended): idempotence holds for configs in which no two declared
specs share the same (type, field) pair (the duplicate check only forbids
sharing the full (dataSource, type, field) triple, and two specs sharing
(type, field) write to the same remote key, so one of them is classified
`update` on the second run). Under that uniqueness, if a first synchronize
run succeeds with result `rs` and the second run sees the same file system
and data-source types and a deployed state reflecting the first run's
writes (`postDeployedOf rs`), then the second run succeeds, computes mode
`ignore` for every declared resolver, and issues no createResolver or
updateResolver call. -/
theorem synchronize_idempotent_unique_type_field (env1 env2 : Env)
    (cfg : Config) (rs : List Resolver)
    (hfs : env2.fs = env1.fs) (hdt : env2.dsType = env1.dsType)
    (hdep : env2.deployed = postDeployedOf rs)
    (huniq : cfg.mappingTemplates.Pairwise
      (fun a b => ¬(a.type = b.type ∧ a.field = b.field)))
    (h1 : (synchronize env1 cfg).1 = .ok rs) :
    ∃ rs2, (synchronize env2 cfg).1 = .ok rs2 ∧
      (∀ r ∈ rs2, r.mode = some "ignore") ∧
      (∀ c ∈ (synchronize env2 cfg).2, isCreateOrUpdateCall c = false) := by
  obtain ⟨hdk, hrs, happ⟩ := synchronize_ok_inversion env1 cfg rs h1
  subst hrs
  -- run 2 resolves the same templates
  have hW : resolversWithTemplatesOf env2 cfg = resolversWithTemplatesOf env1 cfg := by
    have hcongr := fun r => resolveTemplates_env_congr env1 env2 cfg.apiId r hfs hdt
    simp only [resolversWithTemplatesOf, hcongr]
  -- the templated resolvers still have pairwise-distinct (type, field)
  have hWuniq : (resolversWithTemplatesOf env1 cfg).Pairwise
      (fun a b => ¬(a.type = b.type ∧ a.field = b.field)) := by
    rw [resolversWithTemplatesOf, List.pairwise_map]
    refine List.Pairwise.imp ?_ huniq
    intro a b hab hc
    have pa := resolveTemplates_preserves env1 cfg.apiId a
    have pb := resolveTemplates_preserves env1 cfg.apiId b
    exact hab ⟨pa.1.symm.trans (hc.1.trans pb.1),
      pa.2.1.symm.trans (hc.2.trans pb.2.1)⟩
  -- every element of the second run's deployed set is a written record
  have hdep2mem : ∀ e ∈ fetchDeployed env2 cfg.mappingTemplates,
      ∃ q ∈ resolversToDeployOf env1 cfg, e = aliasDeployed (writtenRec q) := by
    intro e he
    rw [fetchDeployed, List.mem_map] at he
    obtain ⟨raw, hraw, he⟩ := he
    rw [List.mem_flatten] at hraw
    obtain ⟨sub, hsub, hrawsub⟩ := hraw
    rw [List.mem_map] at hsub
    obtain ⟨mt, -, hsube⟩ := hsub
    rw [← hsube, hdep, postDeployedOf, List.mem_map] at hrawsub
    obtain ⟨q, hq, hqe⟩ := hrawsub
    rw [List.mem_filter] at hq
    exact ⟨q, hq.1, by rw [← he, ← hqe]⟩
  -- each templated resolver's own written record is in the deployed set
  have hdep2ex : ∀ w ∈ resolversWithTemplatesOf env1 cfg,
      aliasDeployed (writtenRec
        (classify (fetchDeployed env1 cfg.mappingTemplates) w)) ∈
        fetchDeployed env2 cfg.mappingTemplates := by
    intro w hw
    have hw2 := hw
    rw [resolversWithTemplatesOf, List.mem_map] at hw2
    obtain ⟨mt, hmt, hwe⟩ := hw2
    rw [fetchDeployed, List.mem_map]
    refine ⟨writtenRec (classify (fetchDeployed env1 cfg.mappingTemplates) w),
      ?_, rfl⟩
    rw [List.mem_flatten]
    refine ⟨env2.deployed mt.type,
      List.mem_map_of_mem (fun mt => env2.deployed mt.type) hmt, ?_⟩
    rw [hdep, postDeployedOf, List.mem_map]
    refine ⟨classify (fetchDeployed env1 cfg.mappingTemplates) w, ?_, rfl⟩
    rw [List.mem_filter]
    refine ⟨by rw [resolversToDeployOf]; exact List.mem_map_of_mem _ hw, ?_⟩
    have hty : w.type = mt.type := by
      rw [← hwe]
      exact (resolveTemplates_preserves env1 cfg.apiId mt).1
    have : (classify (fetchDeployed env1 cfg.mappingTemplates) w).type = w.type := rfl
    simp [this, hty]
  -- every deployed entry matching a templated resolver's key agrees on the
  -- five compared fields
  have hagree : ∀ w ∈ resolversWithTemplatesOf env1 cfg,
      ∀ e ∈ fetchDeployed env2 cfg.mappingTemplates,
        e.type = w.type → e.field = w.field → equalsByKeys5 e w = true := by
    intro w hw e he ht hf
    obtain ⟨q, hq, hqe⟩ := hdep2mem e he
    rw [resolversToDeployOf, List.mem_map] at hq
    obtain ⟨w2, hw2, hqw⟩ := hq
    have hsymm : Symmetric (fun a b : Resolver =>
        ¬(a.type = b.type ∧ a.field = b.field)) :=
      fun a b h hc => h ⟨hc.1.symm, hc.2.symm⟩
    have ht2 : w2.type = w.type := by
      have : e.type = w2.type := by rw [hqe, ← hqw]; rfl
      rw [← this, ht]
    have hf2 : w2.field = w.field := by
      have : e.field = w2.field := by rw [hqe, ← hqw]; rfl
      rw [← this, hf]
    have hww : w2 = w := by
      by_contra hne
      exact (hWuniq.forall hsymm hw2 hw hne) ⟨ht2, hf2⟩
    rw [hqe, ← hqw, hww]
    exact (equalsByKeys5_iff _ _).mpr ⟨rfl, rfl, rfl, rfl, rfl⟩
  -- second-run classification: every templated resolver is `ignore`
  have hmode : ∀ w ∈ resolversWithTemplatesOf env1 cfg,
      classifyMode (fetchDeployed env2 cfg.mappingTemplates) w = "ignore" := by
    intro w hw
    apply classifyMode_ignore_of
    · exact ⟨aliasDeployed (writtenRec
        (classify (fetchDeployed env1 cfg.mappingTemplates) w)),
        hdep2ex w hw, rfl, rfl⟩
    · intro d hd ht hf
      exact hagree w hw d hd ht hf
  have hmode2 : ∀ r2 ∈ resolversToDeployOf env2 cfg, r2.mode = some "ignore" := by
    intro r2 hr2
    rw [resolversToDeployOf, hW, List.mem_map] at hr2
    obtain ⟨w, hw, hwr⟩ := hr2
    rw [← hwr]
    show some (classifyMode (fetchDeployed env2 cfg.mappingTemplates) w) =
      some "ignore"
    rw [hmode w hw]
  -- the first run's apply validations succeeded, and they are mode-blind
  have hvok : ∀ w ∈ resolversWithTemplatesOf env1 cfg,
      ∃ p, applyValidate cfg w = .ok p := by
    intro w hw
    rw [applyErrorOf] at happ
    have hmem : classify (fetchDeployed env1 cfg.mappingTemplates) w ∈
        resolversToDeployOf env1 cfg := by
      rw [resolversToDeployOf]
      exact List.mem_map_of_mem _ hw
    have h0 := List.findSome?_eq_none_iff.mp happ _ hmem
    cases hv : applyValidate cfg
        (classify (fetchDeployed env1 cfg.mappingTemplates) w) with
    | error e =>
      rw [applyResolver, hv] at h0
      exact absurd h0 (by simp [Except.map])
    | ok p => exact ⟨p, hv⟩
  have happ2 : applyErrorOf env2 cfg = none := by
    rw [applyErrorOf, List.findSome?_eq_none_iff]
    intro r2 hr2
    rw [resolversToDeployOf, hW, List.mem_map] at hr2
    obtain ⟨w, hw, hwr⟩ := hr2
    obtain ⟨p, hp⟩ := hvok w hw
    have hv2 : applyValidate cfg
        (classify (fetchDeployed env2 cfg.mappingTemplates) w) = .ok p := hp
    rw [← hwr, applyResolver, hv2]
    rfl
  -- assemble
  refine ⟨resolversToDeployOf env2 cfg, ?_, hmode2, ?_⟩
  · rw [synchronize, if_neg (by simp [hdk]), happ2]
  · intro c hc
    rw [synchronize_calls env2 cfg hdk] at hc
    rcases List.mem_append.mp hc with hc2 | hc2
    · rcases List.mem_append.mp hc2 with hc3 | hc3
      · rw [fetchCalls, List.mem_map] at hc3
        obtain ⟨mt, -, hce⟩ := hc3
        rw [← hce]; rfl
      · rw [templateCallsOf, List.mem_flatten] at hc3
        obtain ⟨sub, hsub, hcs⟩ := hc3
        rw [List.mem_map] at hsub
        obtain ⟨mt, -, hsube⟩ := hsub
        rw [← hsube] at hcs
        rw [resolveTemplates_snd env2 cfg.apiId mt c hcs]; rfl
    · rw [applyCallsOf, List.mem_filterMap] at hc2
      obtain ⟨r2, hr2, hfm⟩ := hc2
      have hig := hmode2 r2 hr2
      rw [resolversToDeployOf, hW, List.mem_map] at hr2
      obtain ⟨w, hw, hwr⟩ := hr2
      obtain ⟨p, hp⟩ := hvok w hw
      have hv2 : applyValidate cfg
          (classify (fetchDeployed env2 cfg.mappingTemplates) w) = .ok p := hp
      rw [← hwr, applyResolver, hv2] at hfm
      simp only [Except.map] at hfm
      rw [← hwr] at hig
      rw [dispatchCall] at hfm
      rw [hig] at hfm
      simp at hfm

end AppSync

namespace AppSync

/-- Fixture: a first-run environment with nothing deployed. -/
def c9env1 : Env :=
  { fs := fun _ => none, dsType := fun _ => "NONE", deployed := fun _ => [] }

/-- Fixture: two declared specs sharing (type, field) but with different
dataSources — allowed by the duplicate check, which keys on the full
(dataSource, type, field) triple. -/
def c9config : Config :=
  { apiId := some "api"
    mappingTemplates :=
      [{ dataSource := some "DS1", type := some "Query", field := some "getX",
         request := some "r1", response := some "s1" },
       { dataSource := some "DS2", type := some "Query", field := some "getX",
         request := some "r1", response := some "s1" }] }

/-- Fixture: the first run's result on `c9config`. -/
def c9rs1 : List Resolver :=
  match (synchronize c9env1 c9config).1 with
  | .ok rs => rs
  | .error _ => []

/-- Fixture: the second-run environment, whose deployed state reflects the
first run's writes. -/
def c9env2 : Env := { c9env1 with deployed := postDeployedOf c9rs1 }

/-- Counterexample to C9 as stated: the first run succeeds (both specs are
created), yet on the second run — against a deployed state reflecting those
writes — the second spec is classified `update`, not `ignore`, because the
remote key is (type, field) and the lookup finds the first spec's record,
whose dataSource differs. -/
theorem idempotence_counterexample :
    (synchronize c9env1 c9config).1 = .ok c9rs1 ∧
      (match (synchronize c9env2 c9config).1 with
        | .ok rs => rs.map (fun r => r.mode)
        | .error _ => ([] : List (Option String)))
        = [some "ignore", some "update"] :=
  ⟨rfl, rfl⟩

/-- Fixture: a single-spec config (trivially unique (type, field)). -/
def c9wconfig : Config :=
  { apiId := some "api"
    mappingTemplates :=
      [{ dataSource := some "DS1", type := some "Query", field := some "getX",
         request := some "r1", response := some "s1" }] }

/-- Fixture: the first run's result on `c9wconfig`. -/
def c9wrs1 : List Resolver :=
  match (synchronize c9env1 c9wconfig).1 with
  | .ok rs => rs
  | .error _ => []

/-- Fixture: the second-run environment for the witness. -/
def c9wenv2 : Env := { c9env1 with deployed := postDeployedOf c9wrs1 }

/-- Witness for the amended C9 at a concrete one-spec config. -/
theorem synchronize_idempotent_witness :
    ∃ rs2, (synchronize c9wenv2 c9wconfig).1 = .ok rs2 ∧
      (∀ r ∈ rs2, r.mode = some "ignore") ∧
      (∀ c ∈ (synchronize c9wenv2 c9wconfig).2, isCreateOrUpdateCall c = false) :=
  synchronize_idempotent_unique_type_field c9env1 c9wenv2 c9wconfig c9wrs1
    rfl rfl rfl (by decide) rfl

end AppSync
